import Mathlib

/-!
Verification development for the AudioConverterPro repository.

This file gives a shallow embedding, in Lean, of the job orchestration and
conversion pipeline of the repository: the format catalog, the encoder
parameter construction, output naming, source classification, the web job
runner (process_conversion_job in src/app.py), the GUI conversion thread
(ConversionThread in src/audio_converter_gui.py), the CLI converter
(src/cli_converter.py) and the web download route.  External effects
(the yt-dlp extractor, the ffmpeg encoder, the filesystem) are modelled by
explicit oracle records so that each control path of the Python code becomes
a pure function of those oracles.  Python exceptions are modelled with
Except, Python dictionaries of keyword arguments with fixed-field records of
Option values, and Python truthiness tests with explicit truthiness
functions.
-/

deriving instance DecidableEq for Except

/-- Entry of the format catalog: file extension and encoder codec name.
Mirrors the per-format dictionaries in src/app.py lines 29 to 37 and
src/config.py AUDIO_FORMATS (the codec and ext fields, the only ones the
conversion paths read). -/
structure FormatInfo where
  ext : String
  codec : String
deriving Repr, DecidableEq

/-- The format catalog AUDIO_FORMATS of src/app.py (identical codec and ext
pairs appear in src/config.py and src/cli_converter.py). -/
def AUDIO_FORMATS : List (String × FormatInfo) :=
  [("mp3", ⟨"mp3", "libmp3lame"⟩),
   ("ogg", ⟨"ogg", "libvorbis"⟩),
   ("wav", ⟨"wav", "pcm_s16le"⟩),
   ("flac", ⟨"flac", "flac"⟩),
   ("aac", ⟨"aac", "aac"⟩),
   ("m4a", ⟨"m4a", "aac"⟩),
   ("opus", ⟨"opus", "libopus"⟩),
   ("wma", ⟨"wma", "wmav2"⟩)]

/-- Membership test and lookup in the catalog, as in the expression
AUDIO_FORMATS[output_format] guarded by the membership check of
src/app.py line 96. -/
def lookupFormat (fmt : String) : Option FormatInfo :=
  AUDIO_FORMATS.lookup fmt

/-- The self.formats dictionary of src/cli_converter.py lines 19 to 28; the
entries coincide with AUDIO_FORMATS of src/app.py. -/
def cli_formats : List (String × FormatInfo) :=
  [("mp3", ⟨"mp3", "libmp3lame"⟩),
   ("ogg", ⟨"ogg", "libvorbis"⟩),
   ("wav", ⟨"wav", "pcm_s16le"⟩),
   ("flac", ⟨"flac", "flac"⟩),
   ("aac", ⟨"aac", "aac"⟩),
   ("m4a", ⟨"m4a", "aac"⟩),
   ("opus", ⟨"opus", "libopus"⟩),
   ("wma", ⟨"wma", "wmav2"⟩)]

def cli_lookupFormat (fmt : String) : Option FormatInfo :=
  cli_formats.lookup fmt

/-- The codec_map dictionary of ConversionThread._get_audio_params,
src/audio_converter_gui.py lines 127 to 136. -/
def gui_codec_map : List (String × String) :=
  [("mp3", "libmp3lame"),
   ("ogg", "libvorbis"),
   ("wav", "pcm_s16le"),
   ("flac", "flac"),
   ("aac", "aac"),
   ("m4a", "aac"),
   ("opus", "libopus"),
   ("wma", "wmav2")]

/-- Python truthiness of an optional integer: None and 0 are falsy.  This is
the test performed by the statement if sample_rate: in src/app.py line 110. -/
def optNatTruthy : Option Nat → Bool
  | none => false
  | some n => n != 0

/-- Python truthiness of an optional string: None and the empty string are
falsy.  This is the test performed by if bitrate: in src/app.py line 113. -/
def optStrTruthy : Option String → Bool
  | none => false
  | some s => s != ""

/-- The audio_params keyword dictionary built by convert_audio in
src/app.py lines 108 to 114 (and identically in src/cli_converter.py lines
82 to 88).  The dictionary has at most the keys acodec, ar and
audio_bitrate, so it is modelled as a record of Option fields; a field is
none exactly when the corresponding key is absent. -/
structure AudioParams where
  acodec : String
  ar : Option Nat := none
  audio_bitrate : Option String := none
deriving Repr, DecidableEq

/-- Parameter construction of convert_audio, src/app.py lines 108 to 114:
acodec is always set from the catalog entry; ar is set only when
sample_rate is truthy; audio_bitrate is set only when bitrate is truthy. -/
def build_audio_params (fi : FormatInfo) (sample_rate : Option Nat)
    (bitrate : Option String) : AudioParams :=
  { acodec := fi.codec
    ar := if optNatTruthy sample_rate then sample_rate else none
    audio_bitrate := if optStrTruthy bitrate then bitrate else none }

/-- Parameter construction of AudioConverter.convert_audio,
src/cli_converter.py lines 82 to 88; the code is the same as in src/app.py. -/
def cli_build_audio_params (fi : FormatInfo) (sample_rate : Option Nat)
    (bitrate : Option String) : AudioParams :=
  { acodec := fi.codec
    ar := if optNatTruthy sample_rate then sample_rate else none
    audio_bitrate := if optStrTruthy bitrate then bitrate else none }

/-- The settings dictionary handed to ConversionThread; the keys read by
_get_audio_params are sample_rate, bitrate and channels
(src/audio_converter_gui.py lines 141 to 148), each possibly absent. -/
structure GuiSettings where
  sample_rate : Option Nat := none
  bitrate : Option String := none
  channels : Option Nat := none
deriving Repr, DecidableEq

/-- The params dictionary built by ConversionThread._get_audio_params,
src/audio_converter_gui.py lines 122 to 150: acodec from codec_map with
default copy, then ar, audio_bitrate and ac each guarded by a Python
truthiness test of the corresponding settings entry. -/
structure GuiAudioParams where
  acodec : String
  ar : Option Nat := none
  audio_bitrate : Option String := none
  ac : Option Nat := none
deriving Repr, DecidableEq

def gui_get_audio_params (output_format : String) (settings : GuiSettings) :
    GuiAudioParams :=
  { acodec := (gui_codec_map.lookup output_format).getD "copy"
    ar := if optNatTruthy settings.sample_rate then settings.sample_rate else none
    audio_bitrate := if optStrTruthy settings.bitrate then settings.bitrate else none
    ac := if optNatTruthy settings.channels then settings.channels else none }

/-- Decimal digit character, as produced by Python str() on a natural
number digit. -/
def digitChar (d : Nat) : Char :=
  match d with
  | 0 => '0' | 1 => '1' | 2 => '2' | 3 => '3' | 4 => '4'
  | 5 => '5' | 6 => '6' | 7 => '7' | 8 => '8' | _ => '9'

/-- Fueled decimal rendering of a natural number (most significant digit
first).  The fuel argument only serves structural termination; natRepr
below always supplies enough fuel. -/
def natReprAux : Nat → Nat → List Char
  | 0, _ => []
  | fuel + 1, n =>
    if n < 10 then [digitChar n]
    else natReprAux fuel (n / 10) ++ [digitChar (n % 10)]

/-- Decimal rendering of a natural number, the embedding of the Python
f-string interpolation of an integer counter. -/
def natRepr (n : Nat) : String := String.mk (natReprAux (n + 1) n)

/-- Reads a digit string back as a number; used only to prove that natRepr
is injective. -/
def parseDigits (cs : List Char) : Nat :=
  cs.foldl (fun a c => 10 * a + (c.toNat - 48)) 0

/-- Last path component of a POSIX style path: the characters after the
final slash. -/
def lastComponent (cs : List Char) : List Char :=
  (cs.reverse.takeWhile (fun a => a != '/')).reverse

/-- The stem of a path in the sense of Python pathlib (Path(p).stem): the
final component without its last suffix, where a suffix is the part from
the last dot provided that dot is neither the first nor the last character
of the component. -/
def pathStem (p : String) : String :=
  let base := lastComponent p.data
  let rev := base.reverse
  match rev.findIdx? (fun a => a = '.') with
  | none => String.mk base
  | some k =>
    if 0 < k ∧ k < rev.length - 1 then String.mk ((rev.drop (k + 1)).reverse)
    else String.mk base

/-- Output path computed by convert_audio in src/app.py lines 100 to 101:
the OUTPUT_FOLDER (the configured outputs directory) joined with the job id,
an underscore, the stem of the input path and the catalog extension. -/
def web_output_path (job_id input_path : String) (fi : FormatInfo) : String :=
  "outputs/" ++ job_id ++ "_" ++ pathStem input_path ++ "." ++ fi.ext

/-- Output path computed by AudioConverter.convert_audio in
src/cli_converter.py lines 71 to 73: the output directory joined with the
stem of the input and the catalog extension.  No job id and no counter
appears in the name, and no check against existing files is made. -/
def cli_output_path (output_dir input_path : String) (fi : FormatInfo) : String :=
  output_dir ++ "/" ++ pathStem input_path ++ "." ++ fi.ext

/-- CLI conversion, AudioConverter.convert_audio of src/cli_converter.py
lines 64 to 102: unknown formats raise ValueError; an encoder failure is
printed and None is returned; on success the output path is returned.  The
encoder oracle stands for the external ffmpeg run. -/
def cli_convert_audio (encoder : Except String Unit) (input_path output_format : String)
    (sample_rate : Option Nat) (bitrate : Option String) (output_dir : String) :
    Except String (Option String) :=
  match cli_lookupFormat output_format with
  | none => .error ("Unsupported format: " ++ output_format)
  | some fi =>
    let output_path := cli_output_path output_dir input_path fi
    let _params := cli_build_audio_params fi sample_rate bitrate
    match encoder with
    | .ok _ => .ok (some output_path)
    | .error _ => .ok none

/-- Candidate output filenames tried by the GUI collision loop of
src/audio_converter_gui.py lines 94 to 102: first base.fmt, then
base_1.fmt, base_2.fmt and so on. -/
def guiCandidate (base fmt : String) : Nat → String
  | 0 => base ++ "." ++ fmt
  | k + 1 => base ++ "_" ++ natRepr (k + 1) ++ "." ++ fmt

/-- The while loop of src/audio_converter_gui.py lines 98 to 102, advancing
the counter while the candidate name exists.  The Python loop terminates
because only finitely many files exist; here a fuel argument carries that
termination, and guiOutputName below supplies fuel sufficient to make the
fuel-exhausted branch unreachable. -/
def guiPick (base fmt : String) (existing : List String) : Nat → Nat → String
  | 0, k => guiCandidate base fmt k
  | fuel + 1, k =>
    if guiCandidate base fmt k ∈ existing then guiPick base fmt existing fuel (k + 1)
    else guiCandidate base fmt k

/-- Output filename chosen by ConversionThread._convert_audio
(src/audio_converter_gui.py lines 94 to 102) given the list of filenames
already existing in the output directory. -/
def guiOutputName (base fmt : String) (existing : List String) : String :=
  guiPick base fmt existing (existing.length + 1) 0

/-- Python str.rstrip() on the sanitized title: removes trailing
whitespace. -/
def rstripWs (cs : List Char) : List Char :=
  (cs.reverse.dropWhile (fun c => c.isWhitespace)).reverse

/-- Base name derivation of ConversionThread._convert_audio,
src/audio_converter_gui.py lines 89 to 92: from a remote title, keep only
alphanumerics, spaces, dashes and underscores and strip trailing
whitespace; from a local input, take the path stem. -/
def guiBaseName (input_path : String) (title : Option String) : String :=
  match title with
  | some t =>
    String.mk (rstripWs (t.data.filter
      (fun c => c.isAlphanum || c == ' ' || c == '-' || c == '_')))
  | none => pathStem input_path

/-- Substring test on strings: pat occurs contiguously inside s.  This is
the semantics both of the Python operator in on strings and of re.search
with a pattern that is a literal (no metacharacters beyond an escaped
dot). -/
def strContains (s pat : String) : Bool :=
  decide (pat.data <:+: s.data)

/-- Literal-alternation regular expressions, enough to express the pattern
(youtube\.com|youtu\.be) of src/app.py line 62. -/
inductive Rx where
  | lit (pat : String)
  | alt (a b : Rx)

/-- Semantics of re.search for literal-alternation patterns: search
anywhere in the string. -/
def rxSearch : Rx → String → Bool
  | .lit pat, s => strContains s pat
  | .alt a b, s => rxSearch a s || rxSearch b s

/-- The compiled regular expression of is_youtube_url, src/app.py line 62. -/
def youtube_regex : Rx := .alt (.lit "youtube.com") (.lit "youtu.be")

/-- is_youtube_url of src/app.py lines 60 to 63: re.search of the pattern
over the whole descriptor string. -/
def is_youtube_url (url : String) : Bool := rxSearch youtube_regex url

/-- AudioConverter.is_youtube_url of src/cli_converter.py lines 30 to 32:
substring membership tests on the whole descriptor string. -/
def cli_is_youtube_url (url : String) : Bool :=
  strContains url "youtube.com" || strContains url "youtu.be"

/-- ConversionThread._is_youtube_url of src/audio_converter_gui.py lines 41
to 43: the same substring membership tests (the isinstance guard always
holds here since the model types descriptors as strings). -/
def gui_is_youtube_url (url : String) : Bool :=
  strContains url "youtube.com" || strContains url "youtu.be"

/-- Index of the first occurrence of pat in a character list. -/
def findSubIdx (pat : List Char) : List Char → Option Nat
  | [] => if pat.isEmpty then some 0 else none
  | a :: as =>
    if pat.isPrefixOf (a :: as) then some 0
    else (findSubIdx pat as).map (· + 1)

/-- Modelled from the spec: the spec classifies a descriptor as a remote
video URL exactly when the hostname of the descriptor contains a recognized
video hosting domain.  No hostname extraction exists anywhere in the
source, so this definition follows the words of the spec: the hostname is
the authority component after the scheme separator, up to the first slash,
question mark or hash, with userinfo and port stripped; a descriptor
without a scheme separator has no hostname. -/
def specHostname (url : String) : Option String :=
  match findSubIdx "://".data url.data with
  | none => none
  | some i =>
    let rest := url.data.drop (i + 3)
    let auth := rest.takeWhile (fun c => c != '/' && c != '?' && c != '#')
    let noUser := (auth.reverse.takeWhile (fun c => c != '@')).reverse
    let host := noUser.takeWhile (fun c => c != ':')
    if host.isEmpty then none else some (String.mk host)

/-- Job status strings used by the web app (queued, processing, completed,
failed). -/
inductive JobStatus where
  | queued
  | processing
  | completed
  | failed
deriving Repr, DecidableEq

/-- One entry of the conversion_jobs dictionary of src/app.py: the fields
written by the /convert route (lines 191 to 197) and by
process_conversion_job.  Keys that may be absent (output_path, error) are
Option fields. -/
structure JobRecord where
  status : JobStatus
  progress : Nat
  message : String
  filename : String
  output_path : Option String := none
  error : Option String := none
deriving Repr, DecidableEq

/-- The source type of a web conversion job, from the type field of each
submitted source (src/app.py line 188): youtube or file upload. -/
inductive SourceType where
  | youtube
  | file
deriving Repr, DecidableEq

/-- Oracles for the external effects of one web job run.  extract stands
for the yt-dlp extract_info call: on success it yields the reported title
and the listing of the temp directory afterwards; on error the raised
message.  encoder stands for the ffmpeg run inside convert_audio.
existsAtCleanup is the os.path.exists test on the downloaded file at
cleanup time, and removeResult is the outcome of os.remove. -/
structure World where
  extract : Except String (String × List String)
  encoder : Except String Unit
  existsAtCleanup : Bool
  removeResult : Except String Unit

/-- download_youtube_audio of src/app.py lines 66 to 91.  On extractor
failure the exception is re-raised with a YouTube download failed prefix.
On success the temp listing is scanned for a file starting with
job_id ++ _youtube; if one is found, its path and the title are returned.
If none is found the Python function falls off the end of the try block and
implicitly returns None, modelled as ok none. -/
def download_youtube_audio (w : World) (job_id : String) :
    Except String (Option (String × String)) :=
  match w.extract with
  | .error e => .error ("YouTube download failed: " ++ e)
  | .ok (title, listing) =>
    match listing.find? (fun f => (job_id ++ "_youtube").data.isPrefixOf f.data) with
    | some f => .ok (some ("temp/" ++ f, title))
    | none => .ok none

/-- Result of convert_audio of src/app.py lines 94 to 126: the returned
path or raised message, whether the external encoder was invoked at all,
and the parameter dictionary that was built (none when the format check
failed before building it). -/
structure ConvertOutcome where
  result : Except String String
  encoderInvoked : Bool
  params : Option AudioParams
deriving Repr, DecidableEq

/-- convert_audio of src/app.py lines 94 to 126: unknown formats raise
ValueError before anything else; otherwise the output path and parameters
are computed and the encoder runs; an encoder error is re-raised with a
Conversion failed prefix. -/
def convert_audio (encoder : Except String Unit) (input_path output_format : String)
    (sample_rate : Option Nat) (bitrate : Option String) (job_id : String) :
    ConvertOutcome :=
  match lookupFormat output_format with
  | none => ⟨.error ("Unsupported format: " ++ output_format), false, none⟩
  | some fi =>
    let output_path := web_output_path job_id input_path fi
    let ap := build_audio_params fi sample_rate bitrate
    match encoder with
    | .ok _ => ⟨.ok output_path, true, some ap⟩
    | .error e => ⟨.error ("Conversion failed: " ++ e), true, some ap⟩

/-- The except branch of process_conversion_job, src/app.py lines 159 to
162: set status failed, record the error string, set the message.  Returns
the final record and the trace extended by each successive write. -/
def failUpdates (j : JobRecord) (tr : List JobRecord) (e : String) :
    JobRecord × List JobRecord :=
  let j1 := { j with status := JobStatus.failed }
  let tr1 := tr ++ [j1]
  let j2 := { j1 with error := some e }
  let tr2 := tr1 ++ [j2]
  let j3 := { j2 with message := "Error: " ++ e }
  (j3, tr2 ++ [j3])

/-- Result of one web job run: final job record, the trace of job records
after each successive mutation of the shared job entry (beginning with the
initial queued record written by the /convert route), and bookkeeping about
the external effects: whether a download was started, whether the encoder
ran, whether a temporary scratch file was produced, and whether such a file
is still on disk at the end. -/
structure WebRunResult where
  final : JobRecord
  trace : List JobRecord
  downloadInvoked : Bool
  encoderInvoked : Bool
  scratchCreated : Bool
  scratchRemaining : Bool
deriving Repr

/-- Conversion and finalization phase of process_conversion_job, src/app.py
lines 145 to 157, together with the except branch: set the converting
message, run convert_audio; on failure run the except updates; on success
write status completed, progress 100, output_path and the completion
message, then, for a youtube source whose temp file still exists, call
os.remove inside the same try block, so that a removal failure falls into
the except branch and marks the job failed. -/
def convert_and_finalize (w : World) (isYoutube : Bool) (scratchCreated : Bool)
    (downloadInvoked : Bool) (input_path output_format : String)
    (sample_rate : Option Nat) (bitrate : Option String) (job_id : String)
    (j : JobRecord) (tr : List JobRecord) : WebRunResult :=
  let jA := { j with message := "Converting audio..." }
  let trA := tr ++ [jA]
  let co := convert_audio w.encoder input_path output_format sample_rate bitrate job_id
  match co.result with
  | .error e =>
    let p := failUpdates jA trA e
    ⟨p.1, p.2, downloadInvoked, co.encoderInvoked, scratchCreated, scratchCreated⟩
  | .ok outp =>
    let j1 := { jA with status := JobStatus.completed }
    let tr1 := trA ++ [j1]
    let j2 := { j1 with progress := 100 }
    let tr2 := tr1 ++ [j2]
    let j3 := { j2 with output_path := some outp }
    let tr3 := tr2 ++ [j3]
    let j4 := { j3 with message := "Conversion completed!" }
    let tr4 := tr3 ++ [j4]
    if isYoutube && w.existsAtCleanup then
      match w.removeResult with
      | .ok _ => ⟨j4, tr4, downloadInvoked, co.encoderInvoked, scratchCreated, false⟩
      | .error e =>
        let p := failUpdates j4 tr4 e
        ⟨p.1, p.2, downloadInvoked, co.encoderInvoked, scratchCreated, true⟩
    else ⟨j4, tr4, downloadInvoked, co.encoderInvoked, scratchCreated, false⟩

/-- process_conversion_job of src/app.py lines 129 to 162, preceded by the
job record initialization of the /convert route (lines 191 to 197).  The
trace records the job entry after each successive write.  A youtube source
first sets the downloading message and calls download_youtube_audio; a
download exception goes to the except branch; a None return makes the tuple
unpacking at line 138 raise the generic TypeError whose text becomes the
recorded error.  A file source uses the submitted path directly. -/
def process_conversion_job (w : World) (source_type : SourceType)
    (source_data output_format : String) (sample_rate : Option Nat)
    (bitrate : Option String) (job_id name : String) : WebRunResult :=
  let j0 : JobRecord :=
    { status := JobStatus.queued, progress := 0,
      message := "Queued for processing...", filename := name }
  let tr0 := [j0]
  let j1 := { j0 with status := JobStatus.processing }
  let tr1 := tr0 ++ [j1]
  let j2 := { j1 with progress := 20 }
  let tr2 := tr1 ++ [j2]
  match source_type with
  | .youtube =>
    let j3 := { j2 with message := "Downloading from YouTube..." }
    let tr3 := tr2 ++ [j3]
    match download_youtube_audio w job_id with
    | .error e =>
      let p := failUpdates j3 tr3 e
      ⟨p.1, p.2, true, false, false, false⟩
    | .ok none =>
      let p := failUpdates j3 tr3 "cannot unpack non-iterable NoneType object"
      ⟨p.1, p.2, true, false, false, false⟩
    | .ok (some (input_path, title)) =>
      let j4 := { j3 with filename := title }
      let tr4 := tr3 ++ [j4]
      let j5 := { j4 with progress := 60 }
      let tr5 := tr4 ++ [j5]
      convert_and_finalize w true true true input_path output_format
        sample_rate bitrate job_id j5 tr5
  | .file =>
    let j3 := { j2 with progress := 60 }
    let tr3 := tr2 ++ [j3]
    convert_and_finalize w false false false source_data output_format
      sample_rate bitrate job_id j3 tr3

/-- Transition relation of the job status machine as the code actually
implements it: stay in place, queued to processing, processing to a
terminal state, and the cleanup-failure transition from completed to
failed. -/
def statusStepOk (a b : JobStatus) : Bool :=
  a == b
    || (a == JobStatus.queued && b == JobStatus.processing)
    || (a == JobStatus.processing && b == JobStatus.completed)
    || (a == JobStatus.processing && b == JobStatus.failed)
    || (a == JobStatus.completed && b == JobStatus.failed)

/-- Oracles for one GUI conversion run: the yt-dlp extractor outcome (title
and resulting output directory listing), the filenames already existing in
the output directory when the collision loop runs, the encoder outcome, the
os.path.exists test on the temp file in the finally block, and whether
os.remove succeeds there. -/
structure GuiWorld where
  extract : Except String (String × List String)
  existing : List String
  encoder : Except String Unit
  existsAtCleanup : Bool
  removeOk : Bool

/-- ConversionThread._download_youtube of src/audio_converter_gui.py lines
45 to 76: on extractor failure the exception is re-raised with a prefix; on
success the output directory is scanned for a file starting with
youtube_temp_ and ending in .mp3; if none matches the function implicitly
returns None. -/
def gui_download_youtube (gw : GuiWorld) (output_dir : String) :
    Except String (Option (String × String)) :=
  match gw.extract with
  | .error e => .error ("YouTube download failed: " ++ e)
  | .ok (title, listing) =>
    match listing.find? (fun f =>
        "youtube_temp_".data.isPrefixOf f.data && ".mp3".data.isSuffixOf f.data) with
    | some f => .ok (some (output_dir ++ "/" ++ f, title))
    | none => .ok none

/-- ConversionThread._convert_audio of src/audio_converter_gui.py lines 84
to 120: derive the base name, pick a non-colliding filename with the
counter loop, build parameters with _get_audio_params, run the encoder; an
encoder error is re-raised with a Conversion failed prefix. -/
def gui_convert_audio (gw : GuiWorld) (output_dir output_format : String)
    (settings : GuiSettings) (input_path : String) (title : Option String) :
    Except String String :=
  let base := guiBaseName input_path title
  let fname := guiOutputName base output_format gw.existing
  let output_path := output_dir ++ "/" ++ fname
  let _params := gui_get_audio_params output_format settings
  match gw.encoder with
  | .ok _ => .ok output_path
  | .error e => .error ("Conversion failed: " ++ e)

/-- Result of one GUI run: the success flag and payload of the finished
signal, whether a temporary download file was produced, and whether it
remains on disk after the finally block. -/
structure GuiRunResult where
  success : Bool
  payload : String
  scratchCreated : Bool
  scratchRemaining : Bool
deriving Repr, DecidableEq

/-- The finally block of ConversionThread.run, src/audio_converter_gui.py
lines 171 to 177: when a temp file was recorded and still exists, os.remove
is attempted and any failure is swallowed.  Returns whether a scratch file
remains afterwards. -/
def gui_cleanup (gw : GuiWorld) (temp_file : Option String) : Bool :=
  match temp_file with
  | none => false
  | some _ => if gw.existsAtCleanup then !gw.removeOk else false

/-- ConversionThread.run of src/audio_converter_gui.py lines 152 to 177:
for a youtube source, download then convert; a None return from the
download makes the tuple unpacking raise the generic TypeError; any
exception is reported through the finished signal with success False; the
finally block then performs best-effort deletion of the temp file. -/
def gui_run (gw : GuiWorld) (source output_format output_dir : String)
    (settings : GuiSettings) : GuiRunResult :=
  if gui_is_youtube_url source then
    match gui_download_youtube gw output_dir with
    | .error e => ⟨false, e, false, gui_cleanup gw none⟩
    | .ok none =>
      ⟨false, "cannot unpack non-iterable NoneType object", false, gui_cleanup gw none⟩
    | .ok (some (temp_file, title)) =>
      match gui_convert_audio gw output_dir output_format settings temp_file (some title) with
      | .ok outp => ⟨true, outp, true, gui_cleanup gw (some temp_file)⟩
      | .error e => ⟨false, e, true, gui_cleanup gw (some temp_file)⟩
  else
    match gui_convert_audio gw output_dir output_format settings source none with
    | .ok outp => ⟨true, outp, false, gui_cleanup gw none⟩
    | .error e => ⟨false, e, false, gui_cleanup gw none⟩

/-- ConversionThread._youtube_progress_hook of src/audio_converter_gui.py
lines 78 to 82: on a downloading event, the emitted progress is
int(20 + downloaded_bytes / total_bytes * 50) where a missing
downloaded_bytes defaults to 0 and a missing total_bytes defaults to 1.
The Python float division and int truncation are modelled by exact rational
arithmetic and the floor function, which agree on the nonnegative values
the hook receives.  Only the emitted progress number is modelled. -/
def youtube_progress_hook (status : String)
    (downloaded_bytes total_bytes : Option Int) : Option Int :=
  if status = "downloading" then
    let percent : ℚ :=
      ((downloaded_bytes.getD 0 : Int) : ℚ) / ((total_bytes.getD 1 : Int) : ℚ) * 50
    some (Int.floor ((20 : ℚ) + percent))
  else none

/-- Responses of the /download/job_id route of src/app.py lines 247 to 263.
jobNotFound is the 404 Job not found response; fileNotReady the 400 File
not ready response; fileSent the successful send_file; unhandledError an
exception escaping the route handler (Flask turns it into a generic 500
response). -/
inductive DlResp where
  | jobNotFound
  | fileNotReady
  | fileSent (output_path download_name : String)
  | unhandledError (msg : String)
deriving Repr, DecidableEq

/-- Python str.split on a single character separator. -/
def splitOnChar (sep : Char) : List Char → List (List Char)
  | [] => [[]]
  | a :: as =>
    let r := splitOnChar sep as
    if a = sep then [] :: r
    else
      match r with
      | [] => [[a]]
      | h :: t => (a :: h) :: t

/-- Python sep.join on a list of character lists. -/
def joinWith (sep : List Char) : List (List Char) → List Char
  | [] => []
  | [x] => x
  | x :: xs => x ++ sep ++ joinWith sep xs

/-- The cleaned download name of src/app.py lines 258 to 261: the basename
of the output path, split on underscores, with the first piece (the job id
prefix) dropped and the rest rejoined with underscores. -/
def clean_download_name (output_path : String) : String :=
  let fname := lastComponent output_path.data
  String.mk (joinWith ['_'] ((splitOnChar '_' fname).drop 1))

/-- The /download/job_id route of src/app.py lines 247 to 263.  The job
registry is the association list jobs; file_on_disk is the filesystem
oracle consulted by send_file.  A missing job gives 404; a job that is not
completed or has no output_path gives 400; otherwise send_file streams the
file, and if the file is gone it raises FileNotFoundError, which no handler
catches. -/
def download_route (jobs : List (String × JobRecord)) (job_id : String)
    (file_on_disk : String → Bool) : DlResp :=
  match jobs.lookup job_id with
  | none => .jobNotFound
  | some job =>
    if job.status = JobStatus.completed then
      match job.output_path with
      | some outp =>
        if file_on_disk outp then .fileSent outp (clean_download_name outp)
        else .unhandledError "FileNotFoundError"
      | none => .fileNotReady
    else .fileNotReady

/-! ### General helper lemmas -/

theorem strData_append (a b : String) : (a ++ b).data = a.data ++ b.data := rfl

theorem strLength_append (a b : String) : (a ++ b).length = a.length + b.length := by
  show (a ++ b).data.length = a.data.length + b.data.length
  rw [strData_append, List.length_append]

theorem strAppendCancelLeft {a b c : String} (h : a ++ b = a ++ c) : b = c := by
  have h2 := congrArg String.data h
  rw [strData_append, strData_append] at h2
  exact String.ext (List.append_cancel_left h2)

theorem strAppendCancelRight {a b c : String} (h : a ++ c = b ++ c) : a = b := by
  have h2 := congrArg String.data h
  rw [strData_append, strData_append] at h2
  exact String.ext (List.append_cancel_right h2)

theorem digitChar_toNat (d : Nat) (h : d < 10) : (digitChar d).toNat = 48 + d := by
  interval_cases d <;> rfl

theorem parseDigits_natReprAux :
    ∀ fuel n, n < fuel → parseDigits (natReprAux fuel n) = n := by
  intro fuel
  induction fuel with
  | zero => omega
  | succ f ih =>
    intro n h
    unfold natReprAux
    split
    · next hlt => simp [parseDigits, digitChar_toNat n hlt]
    · next hge =>
      have hge2 : 10 ≤ n := by omega
      have h2 : n / 10 < f := by
        have hx : n / 10 < n := Nat.div_lt_self (by omega) (by omega)
        omega
      have hrec := ih (n / 10) h2
      simp only [parseDigits, List.foldl_append, List.foldl] at hrec ⊢
      rw [hrec, digitChar_toNat (n % 10) (Nat.mod_lt _ (by omega))]
      omega

theorem parseDigits_natRepr (n : Nat) : parseDigits (natRepr n).data = n :=
  parseDigits_natReprAux (n + 1) n (by omega)

theorem natRepr_inj {m n : Nat} (h : natRepr m = natRepr n) : m = n := by
  have hm := parseDigits_natRepr m
  have hn := parseDigits_natRepr n
  rw [h] at hm
  omega

theorem natRepr_data_ne_nil (n : Nat) : (natRepr n).data ≠ [] := by
  unfold natRepr natReprAux
  split
  · simp
  · simp

theorem natRepr_length_pos (n : Nat) : 0 < (natRepr n).length := by
  have h := natRepr_data_ne_nil n
  show 0 < (natRepr n).data.length
  cases hd : (natRepr n).data with
  | nil => exact absurd hd h
  | cons a as => simp

theorem guiCandidate_inj (base fmt : String) :
    ∀ {i j : Nat}, guiCandidate base fmt i = guiCandidate base fmt j → i = j := by
  have hdot : ".".data.length = 1 := rfl
  have hus : "_".data.length = 1 := rfl
  intro i j h
  match i, j with
  | 0, 0 => rfl
  | 0, j + 1 =>
    exfalso
    have hl := congrArg (fun s => s.data.length) h
    simp only [guiCandidate, strData_append, List.length_append, hdot, hus] at hl
    have hp : 0 < (natRepr (j + 1)).data.length := natRepr_length_pos (j + 1)
    omega
  | i + 1, 0 =>
    exfalso
    have hl := congrArg (fun s => s.data.length) h
    simp only [guiCandidate, strData_append, List.length_append, hdot, hus] at hl
    have hp : 0 < (natRepr (i + 1)).data.length := natRepr_length_pos (i + 1)
    omega
  | i + 1, j + 1 =>
    have h1 := strAppendCancelRight h
    have h2 := strAppendCancelRight h1
    have h3 := strAppendCancelLeft h2
    have := natRepr_inj h3
    omega

theorem exists_free_candidate (base fmt : String) (existing : List String) :
    ∃ k, k ≤ existing.length ∧ guiCandidate base fmt k ∉ existing := by
  by_contra hc
  push_neg at hc
  have hinj : Set.InjOn (guiCandidate base fmt)
      (Finset.range (existing.length + 1)) := by
    intro x _ y _ hxy
    exact guiCandidate_inj base fmt hxy
  have hsub : Finset.image (guiCandidate base fmt) (Finset.range (existing.length + 1))
      ⊆ existing.toFinset := by
    intro s hs
    rw [Finset.mem_image] at hs
    obtain ⟨k, hk, rfl⟩ := hs
    rw [List.mem_toFinset]
    exact hc k (Nat.lt_succ_iff.mp (Finset.mem_range.mp hk))
  have hcard := Finset.card_le_card hsub
  rw [Finset.card_image_of_injOn hinj, Finset.card_range] at hcard
  have := List.toFinset_card_le existing
  omega

theorem guiPick_not_mem (base fmt : String) (existing : List String) :
    ∀ fuel k, (∃ j, k ≤ j ∧ j < k + fuel ∧ guiCandidate base fmt j ∉ existing) →
      guiPick base fmt existing fuel k ∉ existing := by
  intro fuel
  induction fuel with
  | zero =>
    intro k hex
    obtain ⟨j, h1, h2, _⟩ := hex
    omega
  | succ f ih =>
    intro k hex
    obtain ⟨j, h1, h2, h3⟩ := hex
    unfold guiPick
    split
    · next hin =>
      apply ih (k + 1)
      by_cases hjk : j = k
      · subst hjk
        exact absurd hin h3
      · exact ⟨j, by omega, by omega, h3⟩
    · next hout => exact hout

theorem guiPick_shape (base fmt : String) (existing : List String) :
    ∀ fuel k, ∃ m, guiPick base fmt existing fuel k = guiCandidate base fmt m := by
  intro fuel
  induction fuel with
  | zero =>
    intro k
    exact ⟨k, rfl⟩
  | succ f ih =>
    intro k
    unfold guiPick
    split
    · exact ih (k + 1)
    · exact ⟨k, rfl⟩

theorem guiOutputName_not_mem (base fmt : String) (existing : List String) :
    guiOutputName base fmt existing ∉ existing := by
  obtain ⟨k, hk, hfree⟩ := exists_free_candidate base fmt existing
  exact guiPick_not_mem base fmt existing (existing.length + 1) 0
    ⟨k, by omega, by omega, hfree⟩

theorem gui_codec_map_eq :
    gui_codec_map = AUDIO_FORMATS.map (fun p => (p.1, p.2.codec)) := rfl

theorem lookup_map_codec (l : List (String × FormatInfo)) (k : String) :
    (l.map (fun p => (p.1, p.2.codec))).lookup k = (l.lookup k).map FormatInfo.codec := by
  induction l with
  | nil => rfl
  | cons hd tl ih =>
    obtain ⟨a, b⟩ := hd
    simp only [List.map, List.lookup]
    split <;> simp [ih]

theorem ar_field_isSome_iff (sr : Option Nat) :
    (if optNatTruthy sr then sr else none).isSome = true ↔ ∃ n, sr = some n ∧ n ≠ 0 := by
  cases sr with
  | none => simp [optNatTruthy]
  | some n => by_cases h : n = 0 <;> simp [optNatTruthy, h]

theorem br_field_isSome_iff (br : Option String) :
    (if optStrTruthy br then br else none).isSome = true ↔ ∃ s, br = some s ∧ s ≠ "" := by
  cases br with
  | none => simp [optStrTruthy]
  | some s => by_cases h : s = "" <;> simp [optStrTruthy, h]

/-! ### Claim C1 -/

/-- Claim C1, counterexample.  The claim states that the encoder parameter
map contains a sample-rate key if and only if the request specifies a
sample rate, and a bitrate key if and only if the request specifies a
bitrate.  The request below specifies a sample rate (0) and a bitrate (the
empty string), yet the parameter map built by convert_audio carries neither
key, because the code guards each key with a Python truthiness test rather
than a None test. -/
theorem c1_counterexample :
    (build_audio_params ⟨"ogg", "libvorbis"⟩ (some 0) (some "")).ar = none ∧
    (build_audio_params ⟨"ogg", "libvorbis"⟩ (some 0) (some "")).audio_bitrate = none ∧
    (some 0 : Option Nat) ≠ none ∧
    (some "" : Option String) ≠ none := by
  decide

/-- Claim C1, amended.  For every conversion request, the parameter map
built by the transcoder always contains the codec from the format catalog
(in the GUI, whenever the requested format is in the catalog); it contains
a sample-rate key if and only if the request specifies a nonzero sample
rate, and a bitrate key if and only if the request specifies a nonempty
bitrate; the web and CLI transcoders build identical maps. -/
theorem c1_amended_params_overlay :
    ∀ (fi : FormatInfo) (sr : Option Nat) (br : Option String)
      (fmt : String) (st : GuiSettings),
      (build_audio_params fi sr br).acodec = fi.codec ∧
      ((build_audio_params fi sr br).ar.isSome = true ↔ ∃ n, sr = some n ∧ n ≠ 0) ∧
      ((build_audio_params fi sr br).audio_bitrate.isSome = true ↔
        ∃ s, br = some s ∧ s ≠ "") ∧
      cli_build_audio_params fi sr br = build_audio_params fi sr br ∧
      (lookupFormat fmt = some fi → (gui_get_audio_params fmt st).acodec = fi.codec) ∧
      ((gui_get_audio_params fmt st).ar.isSome = true ↔
        ∃ n, st.sample_rate = some n ∧ n ≠ 0) ∧
      ((gui_get_audio_params fmt st).audio_bitrate.isSome = true ↔
        ∃ s, st.bitrate = some s ∧ s ≠ "") := by
  intro fi sr br fmt st
  refine ⟨rfl, ar_field_isSome_iff sr, br_field_isSome_iff br, rfl, ?_,
    ar_field_isSome_iff st.sample_rate, br_field_isSome_iff st.bitrate⟩
  intro hlk
  show ((gui_codec_map.lookup fmt).getD "copy") = fi.codec
  rw [gui_codec_map_eq, lookup_map_codec]
  rw [show AUDIO_FORMATS.lookup fmt = some fi from hlk]
  rfl

/-- Claim C1, witness for the amended theorem at a concrete request. -/
theorem c1_amended_params_overlay_witness :
    (gui_get_audio_params "ogg" { sample_rate := some 32000 }).acodec = "libvorbis" ∧
    (build_audio_params ⟨"ogg", "libvorbis"⟩ (some 32000) (some "128k")).ar.isSome = true := by
  have h := c1_amended_params_overlay ⟨"ogg", "libvorbis"⟩ (some 32000) (some "128k")
    "ogg" { sample_rate := some 32000 }
  exact ⟨h.2.2.2.2.1 (by decide), h.2.1.mpr ⟨32000, rfl, by decide⟩⟩

/-! ### Claim C9 -/

/-- Claim C9, confirmed.  A conversion request whose sample rate is 0 or
whose bitrate is the empty string is treated by every transcoder variant
exactly as if the field were absent: the parameter maps coincide with the
maps for the absent field, so no sample-rate or bitrate key appears, and a
caller cannot request an explicit sample rate of 0. -/
theorem c9_truthiness_drops_zero_and_empty :
    ∀ (fi : FormatInfo) (sr : Option Nat) (br : Option String)
      (fmt : String) (st : GuiSettings),
      build_audio_params fi (some 0) br = build_audio_params fi none br ∧
      build_audio_params fi sr (some "") = build_audio_params fi sr none ∧
      cli_build_audio_params fi (some 0) br = cli_build_audio_params fi none br ∧
      cli_build_audio_params fi sr (some "") = cli_build_audio_params fi sr none ∧
      gui_get_audio_params fmt { st with sample_rate := some 0 } =
        gui_get_audio_params fmt { st with sample_rate := none } ∧
      gui_get_audio_params fmt { st with bitrate := some "" } =
        gui_get_audio_params fmt { st with bitrate := none } ∧
      (build_audio_params fi (some 0) br).ar = none ∧
      (build_audio_params fi sr (some "")).audio_bitrate = none := by
  intro fi sr br fmt st
  exact ⟨rfl, rfl, rfl, rfl, rfl, rfl, rfl, rfl⟩

/-! ### Claim C7 -/

/-- Claim C7, counterexample.  The claim states that classification yields
a remote video URL exactly when the hostname of the descriptor contains a
recognized video-hosting domain.  The first descriptor below has hostname
example.com, which contains neither youtube.com nor youtu.be, and the
second is a local file name with no hostname at all; the code classifies
both as YouTube sources because it only tests for the substring anywhere in
the raw descriptor. -/
theorem c7_counterexample :
    is_youtube_url "https://example.com/watch?ref=youtube.com" = true ∧
    specHostname "https://example.com/watch?ref=youtube.com" = some "example.com" ∧
    strContains "example.com" "youtube.com" = false ∧
    strContains "example.com" "youtu.be" = false ∧
    is_youtube_url "my_youtube.com_backup.mp3" = true ∧
    specHostname "my_youtube.com_backup.mp3" = none := by
  decide

/-- Claim C7, amended.  All three implementations agree on every
descriptor, and classification yields a remote video URL exactly when the
raw descriptor string contains the substring youtube.com or youtu.be
anywhere, whether or not the descriptor is a URL and regardless of where
in the string the match occurs. -/
theorem c7_amended_substring_classification :
    ∀ s : String,
      is_youtube_url s = cli_is_youtube_url s ∧
      gui_is_youtube_url s = cli_is_youtube_url s ∧
      (is_youtube_url s = true ↔
        ("youtube.com".data <:+: s.data ∨ "youtu.be".data <:+: s.data)) := by
  intro s
  refine ⟨rfl, rfl, ?_⟩
  simp [is_youtube_url, rxSearch, youtube_regex, strContains,
    Bool.or_eq_true, decide_eq_true_iff]

/-! ### Claim C6 -/

/-- Claim C6, counterexample.  The claim states that in CLI mode collisions
are avoided by a numeric suffix loop checked against existing files.  The
CLI convert_audio has no such loop: two inputs sharing the stem song map to
the same output path, which the encoder then overwrites. -/
theorem c6_counterexample :
    cli_convert_audio (Except.ok ()) "a/song.mp3" "ogg" none none "converted" =
      Except.ok (some "converted/song.ogg") ∧
    cli_convert_audio (Except.ok ()) "b/song.wav" "ogg" none none "converted" =
      Except.ok (some "converted/song.ogg") := by
  decide

/-- Claim C6, amended.  In the web mode the computed output path is the
outputs directory joined with jobId, an underscore, the stem of the input
and the catalog extension, so two jobs with distinct job ids never compute
the same output path when their inputs share a stem.  In the GUI the
numeric suffix loop returns a candidate of the form name.ext or name_k.ext
that is not among the existing files.  In CLI mode there is no collision
avoidance at all: the output path depends only on the stem and format, so
inputs sharing a stem collide. -/
theorem c6_amended_output_naming :
    (∀ (input_path fmt : String) (fi : FormatInfo) (sr : Option Nat)
       (br : Option String) (jid : String),
       lookupFormat fmt = some fi →
       (convert_audio (Except.ok ()) input_path fmt sr br jid).result =
         Except.ok ("outputs/" ++ jid ++ "_" ++ pathStem input_path ++ "." ++ fi.ext)) ∧
    (∀ (j1 j2 i1 i2 : String) (fi : FormatInfo),
       pathStem i1 = pathStem i2 → j1 ≠ j2 →
       web_output_path j1 i1 fi ≠ web_output_path j2 i2 fi) ∧
    (∀ (base fmt : String) (existing : List String),
       guiOutputName base fmt existing ∉ existing ∧
       ∃ k, guiOutputName base fmt existing = guiCandidate base fmt k) ∧
    (∀ (dir i1 i2 : String) (fi : FormatInfo),
       pathStem i1 = pathStem i2 →
       cli_output_path dir i1 fi = cli_output_path dir i2 fi) := by
  refine ⟨?_, ?_, ?_, ?_⟩
  · intro input_path fmt fi sr br jid hlk
    simp [convert_audio, hlk, web_output_path]
  · intro j1 j2 i1 i2 fi hstem hne h
    apply hne
    unfold web_output_path at h
    rw [hstem] at h
    have h1 := strAppendCancelRight h
    have h2 := strAppendCancelRight h1
    have h3 := strAppendCancelRight h2
    have h4 := strAppendCancelRight h3
    exact strAppendCancelLeft h4
  · intro base fmt existing
    exact ⟨guiOutputName_not_mem base fmt existing,
      guiPick_shape base fmt existing (existing.length + 1) 0⟩
  · intro dir i1 i2 fi hstem
    unfold cli_output_path
    rw [hstem]

/-- Claim C6, witness for the amended theorem at concrete inputs. -/
theorem c6_amended_output_naming_witness :
    (convert_audio (Except.ok ()) "uploads/u1_track.wav" "ogg" none none "J1").result =
      Except.ok ("outputs/" ++ "J1" ++ "_" ++ pathStem "uploads/u1_track.wav" ++ "." ++ "ogg") ∧
    web_output_path "J1" "a/song.mp3" ⟨"ogg", "libvorbis"⟩ ≠
      web_output_path "J2" "b/song.wav" ⟨"ogg", "libvorbis"⟩ ∧
    cli_output_path "converted" "a/song.mp3" ⟨"ogg", "libvorbis"⟩ =
      cli_output_path "converted" "b/song.wav" ⟨"ogg", "libvorbis"⟩ := by
  refine ⟨c6_amended_output_naming.1 "uploads/u1_track.wav" "ogg" ⟨"ogg", "libvorbis"⟩
      none none "J1" (by decide),
    c6_amended_output_naming.2.1 "J1" "J2" "a/song.mp3" "b/song.wav"
      ⟨"ogg", "libvorbis"⟩ (by decide) (by decide),
    c6_amended_output_naming.2.2.2 "converted" "a/song.mp3" "b/song.wav"
      ⟨"ogg", "libvorbis"⟩ (by decide)⟩

/-! ### Claim C8 -/

/-- Claim C8, counterexample.  The claim states that retrieval for a
completed job whose output file has been swept fails with a distinct
ArtifactGoneError.  No such error exists in the code: with the output file
gone, send_file raises FileNotFoundError, which no handler catches, so the
route produces a generic unhandled-exception response (a 500), merely
different from the 404 job-not-found response. -/
theorem c8_counterexample :
    download_route
      [("J", { status := JobStatus.completed, progress := 100, message := "done",
               filename := "n", output_path := some "outputs/J_x.ogg", error := none })]
      "J" (fun _ => false) = DlResp.unhandledError "FileNotFoundError" ∧
    DlResp.unhandledError "FileNotFoundError" ≠ DlResp.jobNotFound := by
  constructor
  · decide
  · decide

/-- Claim C8, amended.  Retrieval on an existing job that is not completed
(or has no recorded output path) is refused with the explicit File not
ready response rather than returning bytes.  For a completed job whose
output file has been swept from disk, send_file raises FileNotFoundError
and the route fails with a generic unhandled-exception 500 response; this
response is distinct from the job-not-found 404 but is not a dedicated
ArtifactGoneError, which the code does not define. -/
theorem c8_amended_retrieval :
    ∀ (jobs : List (String × JobRecord)) (jid : String) (job : JobRecord)
      (fexists : String → Bool),
      jobs.lookup jid = some job →
      (job.status ≠ JobStatus.completed →
        download_route jobs jid fexists = DlResp.fileNotReady) ∧
      (∀ p, job.status = JobStatus.completed → job.output_path = some p →
        fexists p = false →
        download_route jobs jid fexists = DlResp.unhandledError "FileNotFoundError" ∧
        DlResp.unhandledError "FileNotFoundError" ≠ DlResp.jobNotFound) := by
  intro jobs jid job fexists hlk
  constructor
  · intro hst
    simp [download_route, hlk, hst]
  · intro p hst hout hex
    refine ⟨?_, by decide⟩
    simp [download_route, hlk, hst, hout, hex]

/-- Claim C8, witness for the amended theorem at a concrete registry. -/
theorem c8_amended_retrieval_witness :
    download_route
      [("P", { status := JobStatus.processing, progress := 20, message := "m",
               filename := "n", output_path := none, error := none })]
      "P" (fun _ => true) = DlResp.fileNotReady ∧
    download_route
      [("J", { status := JobStatus.completed, progress := 100, message := "done",
               filename := "n", output_path := some "outputs/J_y.ogg", error := none })]
      "J" (fun _ => false) = DlResp.unhandledError "FileNotFoundError" := by
  refine ⟨(c8_amended_retrieval _ "P"
    { status := JobStatus.processing, progress := 20, message := "m",
      filename := "n", output_path := none, error := none }
    (fun _ => true) (by decide)).1 (by decide), ?_⟩
  exact ((c8_amended_retrieval _ "J"
    { status := JobStatus.completed, progress := 100, message := "done",
      filename := "n", output_path := some "outputs/J_y.ogg", error := none }
    (fun _ => false) (by decide)).2 "outputs/J_y.ogg" rfl rfl rfl).1

/-! ### Claim C4 -/

/-- Claim C4, counterexample.  The claim states that Completed is terminal
and that outputPath is populated iff the status is Completed.  In the run
below the job reaches Completed with its output path set, then the cleanup
os.remove raises inside the same try block, and the except branch flips the
status to Failed while outputPath stays populated. -/
theorem c4_counterexample :
    (process_conversion_job
        ⟨Except.ok ("T", ["J_youtube.mp3"]), Except.ok (), true,
         Except.error "Permission denied"⟩
        SourceType.youtube "url" "ogg" none none "J" "n").final.status =
      JobStatus.failed ∧
    (process_conversion_job
        ⟨Except.ok ("T", ["J_youtube.mp3"]), Except.ok (), true,
         Except.error "Permission denied"⟩
        SourceType.youtube "url" "ogg" none none "J" "n").final.output_path.isSome = true ∧
    JobStatus.completed ∈
      (process_conversion_job
        ⟨Except.ok ("T", ["J_youtube.mp3"]), Except.ok (), true,
         Except.error "Permission denied"⟩
        SourceType.youtube "url" "ogg" none none "J" "n").trace.map JobRecord.status := by
  decide

/-- Claim C4, amended.  Every trace starts in Queued and every transition
follows Queued to Processing, Processing to Completed or Failed, or the
cleanup-failure transition Completed to Failed; Failed is terminal.  The
final outputPath is populated iff the job reached Completed at some point;
a job flipped from Completed to Failed by a cleanup failure keeps its
populated outputPath while reporting Failed. -/
theorem c4_amended_state_machine :
    ∀ (w : World) (st : SourceType) (sd fmt : String) (sr : Option Nat)
      (br : Option String) (jid nm : String),
      ((process_conversion_job w st sd fmt sr br jid nm).trace.map
        JobRecord.status).head? = some JobStatus.queued ∧
      List.Chain' (fun a b => statusStepOk a b = true)
        ((process_conversion_job w st sd fmt sr br jid nm).trace.map JobRecord.status) ∧
      ((process_conversion_job w st sd fmt sr br jid nm).final.output_path.isSome = true ↔
        JobStatus.completed ∈
          (process_conversion_job w st sd fmt sr br jid nm).trace.map JobRecord.status) := by
  intro w st sd fmt sr br jid nm
  obtain ⟨ext, enc, fex, rm⟩ := w
  cases st
  case youtube =>
    cases hdl : download_youtube_audio ⟨ext, enc, fex, rm⟩ jid with
    | error e =>
      simp [process_conversion_job, hdl, failUpdates, List.chain'_cons, statusStepOk]
    | ok o =>
      cases o with
      | none =>
        simp [process_conversion_job, hdl, failUpdates, List.chain'_cons, statusStepOk]
      | some pr =>
        obtain ⟨inp, title⟩ := pr
        cases hco : (convert_audio enc inp fmt sr br jid).result with
        | error e =>
          simp [process_conversion_job, hdl, convert_and_finalize, hco, failUpdates,
            List.chain'_cons, statusStepOk]
        | ok outp =>
          cases fex
          · simp [process_conversion_job, hdl, convert_and_finalize, hco, failUpdates,
              List.chain'_cons, statusStepOk]
          · cases rm with
            | ok v =>
              simp [process_conversion_job, hdl, convert_and_finalize, hco, failUpdates,
                List.chain'_cons, statusStepOk]
            | error e2 =>
              simp [process_conversion_job, hdl, convert_and_finalize, hco, failUpdates,
                List.chain'_cons, statusStepOk]
  case file =>
    cases hco : (convert_audio enc sd fmt sr br jid).result with
    | error e =>
      simp [process_conversion_job, convert_and_finalize, hco, failUpdates,
        List.chain'_cons, statusStepOk]
    | ok outp =>
      simp [process_conversion_job, convert_and_finalize, hco, failUpdates,
        List.chain'_cons, statusStepOk]

/-! ### Claim C5 -/

/-- Claim C5, counterexample.  The claim states that reported progress
stays within 0 to 100.  When the download callback carries no total_bytes
key, the GUI hook divides by the default 1, so downloading 4 bytes already
emits progress 220. -/
theorem c5_counterexample :
    ∃ p, youtube_progress_hook "downloading" (some 4) none = some p ∧ 100 < p := by
  refine ⟨220, ?_, by decide⟩
  simp only [youtube_progress_hook, if_pos rfl, Option.getD, Option.some.injEq]
  rw [show (20 : ℚ) + ((4 : Int) : ℚ) / ((1 : Int) : ℚ) * 50 = ((220 : ℤ) : ℚ) by norm_num,
    Int.floor_intCast]
  decide

/-- Claim C5, amended.  In the web runner, the per-job progress trace is
monotonically non-decreasing, stays within 0 to 100, contains 100 exactly
when the job reached Completed, and a job whose final status is Completed
has final progress 100.  In the GUI, the download hook keeps its emitted
progress within 20 to 70 provided the callback reports a total size (at
least the downloaded bytes); when total_bytes is missing, its default of 1
lets the emitted progress exceed 100. -/
theorem c5_amended_progress :
    (∀ (w : World) (st : SourceType) (sd fmt : String) (sr : Option Nat)
       (br : Option String) (jid nm : String),
       List.Chain' (· ≤ ·)
         ((process_conversion_job w st sd fmt sr br jid nm).trace.map
           JobRecord.progress) ∧
       (∀ p ∈ (process_conversion_job w st sd fmt sr br jid nm).trace.map
           JobRecord.progress, p ≤ 100) ∧
       ((100 ∈ (process_conversion_job w st sd fmt sr br jid nm).trace.map
           JobRecord.progress) ↔
         JobStatus.completed ∈
           (process_conversion_job w st sd fmt sr br jid nm).trace.map
             JobRecord.status) ∧
       ((process_conversion_job w st sd fmt sr br jid nm).final.status =
           JobStatus.completed →
         (process_conversion_job w st sd fmt sr br jid nm).final.progress = 100)) ∧
    (∀ d t : Int, 0 ≤ d → d ≤ t → 0 < t →
       ∃ p, youtube_progress_hook "downloading" (some d) (some t) = some p ∧
         20 ≤ p ∧ p ≤ 70) := by
  constructor
  · intro w st sd fmt sr br jid nm
    obtain ⟨ext, enc, fex, rm⟩ := w
    cases st
    case youtube =>
      cases hdl : download_youtube_audio ⟨ext, enc, fex, rm⟩ jid with
      | error e =>
        simp [process_conversion_job, hdl, failUpdates, List.chain'_cons]
      | ok o =>
        cases o with
        | none =>
          simp [process_conversion_job, hdl, failUpdates, List.chain'_cons]
        | some pr =>
          obtain ⟨inp, title⟩ := pr
          cases hco : (convert_audio enc inp fmt sr br jid).result with
          | error e =>
            simp [process_conversion_job, hdl, convert_and_finalize, hco, failUpdates,
              List.chain'_cons]
          | ok outp =>
            cases fex
            · simp [process_conversion_job, hdl, convert_and_finalize, hco, failUpdates,
                List.chain'_cons]
            · cases rm with
              | ok v =>
                simp [process_conversion_job, hdl, convert_and_finalize, hco,
                  failUpdates, List.chain'_cons]
              | error e2 =>
                simp [process_conversion_job, hdl, convert_and_finalize, hco,
                  failUpdates, List.chain'_cons]
    case file =>
      cases hco : (convert_audio enc sd fmt sr br jid).result with
      | error e =>
        simp [process_conversion_job, convert_and_finalize, hco, failUpdates,
          List.chain'_cons]
      | ok outp =>
        simp [process_conversion_job, convert_and_finalize, hco, failUpdates,
          List.chain'_cons]
  · intro d t hd hdt ht
    have htq : (0 : ℚ) < (t : ℚ) := by exact_mod_cast ht
    have hdq : (0 : ℚ) ≤ (d : ℚ) := by exact_mod_cast hd
    have hfrac0 : (0 : ℚ) ≤ (d : ℚ) / (t : ℚ) := div_nonneg hdq (le_of_lt htq)
    have hfrac1 : (d : ℚ) / (t : ℚ) ≤ 1 := by
      rw [div_le_one htq]
      exact_mod_cast hdt
    refine ⟨Int.floor ((20 : ℚ) + (d : ℚ) / (t : ℚ) * 50), ?_, ?_, ?_⟩
    · simp [youtube_progress_hook]
    · rw [Int.le_floor]
      push_cast
      linarith
    · have h3 : (20 : ℚ) + (d : ℚ) / (t : ℚ) * 50 ≤ ((70 : ℤ) : ℚ) := by
        push_cast
        linarith
      calc Int.floor ((20 : ℚ) + (d : ℚ) / (t : ℚ) * 50)
          ≤ Int.floor (((70 : ℤ) : ℚ)) := Int.floor_le_floor h3
        _ = 70 := Int.floor_intCast 70

/-- Claim C5, witness for the amended theorem at a concrete download event
and a concrete completed run. -/
theorem c5_amended_progress_witness :
    (∃ p, youtube_progress_hook "downloading" (some 50) (some 100) = some p ∧
      20 ≤ p ∧ p ≤ 70) ∧
    (process_conversion_job ⟨Except.ok ("T", []), Except.ok (), true, Except.ok ()⟩
      SourceType.file "song.mp3" "ogg" none none "J" "n").final.progress = 100 :=
  ⟨c5_amended_progress.2 50 100 (by decide) (by decide) (by decide),
   (c5_amended_progress.1 ⟨Except.ok ("T", []), Except.ok (), true, Except.ok ()⟩
     SourceType.file "song.mp3" "ogg" none none "J" "n").2.2.2 (by decide)⟩

/-! ### Claim C2 -/

/-- Claim C2, counterexample.  The claim states that a job with an unknown
format id fails before any acquisition work, with no download performed.
For a remote-source job the web runner downloads first and only then calls
convert_audio, where the format check lives: below, the download for the
unsupported format mp4a is performed (and a scratch file is produced)
before the job fails. -/
theorem c2_counterexample :
    (process_conversion_job
        ⟨Except.ok ("T", ["J_youtube.mp3"]), Except.ok (), true, Except.ok ()⟩
        SourceType.youtube "https://youtu.be/x" "mp4a" none none "J" "n").downloadInvoked
      = true ∧
    (process_conversion_job
        ⟨Except.ok ("T", ["J_youtube.mp3"]), Except.ok (), true, Except.ok ()⟩
        SourceType.youtube "https://youtu.be/x" "mp4a" none none "J" "n").final.status
      = JobStatus.failed ∧
    (process_conversion_job
        ⟨Except.ok ("T", ["J_youtube.mp3"]), Except.ok (), true, Except.ok ()⟩
        SourceType.youtube "https://youtu.be/x" "mp4a" none none "J" "n").final.error
      = some "Unsupported format: mp4a" ∧
    (process_conversion_job
        ⟨Except.ok ("T", ["J_youtube.mp3"]), Except.ok (), true, Except.ok ()⟩
        SourceType.youtube "https://youtu.be/x" "mp4a" none none "J" "n").encoderInvoked
      = false := by
  decide

/-- Claim C2, amended.  For every job whose requested format id is not in
the catalog, the job ends Failed and the encoder is never invoked; a
local-file job fails immediately with the unsupported-format error and
performs no download, but a remote-source job performs the download first,
because the format is checked only inside convert_audio. -/
theorem c2_amended_unsupported_format :
    ∀ (w : World) (st : SourceType) (sd fmt : String) (sr : Option Nat)
      (br : Option String) (jid nm : String),
      lookupFormat fmt = none →
      (process_conversion_job w st sd fmt sr br jid nm).encoderInvoked = false ∧
      (process_conversion_job w st sd fmt sr br jid nm).final.status =
        JobStatus.failed ∧
      (st = SourceType.file →
        (process_conversion_job w st sd fmt sr br jid nm).downloadInvoked = false ∧
        (process_conversion_job w st sd fmt sr br jid nm).final.error =
          some ("Unsupported format: " ++ fmt)) ∧
      (st = SourceType.youtube →
        (process_conversion_job w st sd fmt sr br jid nm).downloadInvoked = true) := by
  intro w st sd fmt sr br jid nm hl
  obtain ⟨ext, enc, fex, rm⟩ := w
  cases st
  case youtube =>
    cases hdl : download_youtube_audio ⟨ext, enc, fex, rm⟩ jid with
    | error e =>
      simp [process_conversion_job, hdl, failUpdates]
    | ok o =>
      cases o with
      | none =>
        simp [process_conversion_job, hdl, failUpdates]
      | some pr =>
        obtain ⟨inp, title⟩ := pr
        simp [process_conversion_job, hdl, convert_and_finalize, convert_audio, hl,
          failUpdates]
  case file =>
    simp [process_conversion_job, convert_and_finalize, convert_audio, hl, failUpdates]

/-- Claim C2, witness for the amended theorem at a concrete local-file
job. -/
theorem c2_amended_unsupported_format_witness :
    (process_conversion_job ⟨Except.ok ("T", []), Except.ok (), true, Except.ok ()⟩
      SourceType.file "song.mp3" "mp4a" none none "J" "n").encoderInvoked = false ∧
    (process_conversion_job ⟨Except.ok ("T", []), Except.ok (), true, Except.ok ()⟩
      SourceType.file "song.mp3" "mp4a" none none "J" "n").final.status =
        JobStatus.failed ∧
    (process_conversion_job ⟨Except.ok ("T", []), Except.ok (), true, Except.ok ()⟩
      SourceType.file "song.mp3" "mp4a" none none "J" "n").downloadInvoked = false := by
  have h := c2_amended_unsupported_format
    ⟨Except.ok ("T", []), Except.ok (), true, Except.ok ()⟩
    SourceType.file "song.mp3" "mp4a" none none "J" "n" (by decide)
  exact ⟨h.1, h.2.1, (h.2.2.1 rfl).1⟩

/-! ### Claim C3 -/

/-- Claim C3, counterexample.  The claim states that the web runner deletes
the scratch file after convert has returned whether it succeeded or failed,
and that a deletion failure never changes the job status.  In the first run
below convert fails and the scratch file is left behind (the deletion lives
on the success path only); in the second run deletion itself fails and the
except branch flips the completed job to failed. -/
theorem c3_counterexample :
    (process_conversion_job
        ⟨Except.ok ("T", ["J_youtube.mp3"]), Except.error "encoder exploded", true,
         Except.ok ()⟩
        SourceType.youtube "url" "ogg" none none "J" "n").scratchCreated = true ∧
    (process_conversion_job
        ⟨Except.ok ("T", ["J_youtube.mp3"]), Except.error "encoder exploded", true,
         Except.ok ()⟩
        SourceType.youtube "url" "ogg" none none "J" "n").scratchRemaining = true ∧
    (process_conversion_job
        ⟨Except.ok ("T", ["J_youtube.mp3"]), Except.ok (), true,
         Except.error "Permission denied"⟩
        SourceType.youtube "url" "ogg" none none "J" "n").final.status =
      JobStatus.failed := by
  decide

/-- Claim C3, amended.  In the GUI runner the claim holds: once a scratch
file was produced, the finally block deletes it whether convert succeeded
or failed (whenever it still exists and removal succeeds), and the success
flag of the finished signal never depends on the removal outcome.  In the
web runner the scratch file is deleted only on the success path: a convert
failure leaves the scratch file behind, and a removal failure is caught by
the job-wide except branch, which changes the completed status to failed. -/
theorem c3_amended_scratch_cleanup :
    (∀ (gext : Except String (String × List String)) (gexist : List String)
       (genc : Except String Unit) (gfex grm : Bool) (source fmt dir : String)
       (st : GuiSettings) (tf title : String),
       gui_is_youtube_url source = true →
       gui_download_youtube ⟨gext, gexist, genc, gfex, grm⟩ dir =
         Except.ok (some (tf, title)) →
       (gui_run ⟨gext, gexist, genc, gfex, grm⟩ source fmt dir st).scratchCreated
           = true ∧
       (gfex = true → grm = true →
         (gui_run ⟨gext, gexist, genc, gfex, grm⟩ source fmt dir st).scratchRemaining
           = false) ∧
       (∀ b1 b2 : Bool,
         (gui_run ⟨gext, gexist, genc, gfex, b1⟩ source fmt dir st).success =
         (gui_run ⟨gext, gexist, genc, gfex, b2⟩ source fmt dir st).success)) ∧
    (∀ (ext : Except String (String × List String)) (enc : Except String Unit)
       (fex : Bool) (rm : Except String Unit) (sd fmt : String) (sr : Option Nat)
       (br : Option String) (jid nm inp title : String),
       download_youtube_audio ⟨ext, enc, fex, rm⟩ jid =
         Except.ok (some (inp, title)) →
       (∀ e, (convert_audio enc inp fmt sr br jid).result = Except.error e →
         (process_conversion_job ⟨ext, enc, fex, rm⟩ SourceType.youtube sd fmt sr br
           jid nm).scratchRemaining = true) ∧
       (∀ outp e, (convert_audio enc inp fmt sr br jid).result = Except.ok outp →
         fex = true → rm = Except.error e →
         (process_conversion_job ⟨ext, enc, fex, rm⟩ SourceType.youtube sd fmt sr br
           jid nm).final.status = JobStatus.failed ∧
         (process_conversion_job ⟨ext, enc, fex, rm⟩ SourceType.youtube sd fmt sr br
           jid nm).scratchRemaining = true)) := by
  constructor
  · intro gext gexist genc gfex grm source fmt dir st tf title hyt hdl
    refine ⟨?_, ?_, ?_⟩
    · cases hge : genc with
      | ok u =>
        rw [hge] at hdl
        simp [gui_run, hyt, hdl, gui_convert_audio]
      | error e =>
        rw [hge] at hdl
        simp [gui_run, hyt, hdl, gui_convert_audio]
    · intro hfx hrm
      subst hfx
      subst hrm
      cases hge : genc with
      | ok u =>
        rw [hge] at hdl
        simp [gui_run, hyt, hdl, gui_convert_audio, gui_cleanup]
      | error e =>
        rw [hge] at hdl
        simp [gui_run, hyt, hdl, gui_convert_audio, gui_cleanup]
    · intro b1 b2
      have hdl1 : gui_download_youtube ⟨gext, gexist, genc, gfex, b1⟩ dir =
          Except.ok (some (tf, title)) := hdl
      have hdl2 : gui_download_youtube ⟨gext, gexist, genc, gfex, b2⟩ dir =
          Except.ok (some (tf, title)) := hdl
      cases hge : genc with
      | ok u =>
        rw [hge] at hdl1 hdl2
        simp [gui_run, hyt, hdl1, hdl2, gui_convert_audio]
      | error e =>
        rw [hge] at hdl1 hdl2
        simp [gui_run, hyt, hdl1, hdl2, gui_convert_audio]
  · intro ext enc fex rm sd fmt sr br jid nm inp title hdl
    constructor
    · intro e hco
      simp [process_conversion_job, hdl, convert_and_finalize, hco, failUpdates]
    · intro outp e hco hfx hrm
      subst hfx
      subst hrm
      simp [process_conversion_job, hdl, convert_and_finalize, hco, failUpdates]

/-- Claim C3, witness for the amended theorem at concrete runs. -/
theorem c3_amended_scratch_cleanup_witness :
    (gui_run ⟨Except.ok ("T", ["youtube_temp_T.mp3"]), [], Except.error "enc", true, true⟩
      "https://youtu.be/x" "ogg" "out" {}).scratchRemaining = false ∧
    (process_conversion_job
      ⟨Except.ok ("T", ["J_youtube.mp3"]), Except.error "boom", true, Except.ok ()⟩
      SourceType.youtube "url" "ogg" none none "J" "n").scratchRemaining = true := by
  constructor
  · exact (c3_amended_scratch_cleanup.1 (Except.ok ("T", ["youtube_temp_T.mp3"])) []
      (Except.error "enc") true true "https://youtu.be/x" "ogg" "out" {}
      "out/youtube_temp_T.mp3" "T" (by decide) (by decide)).2.1 rfl rfl
  · exact (c3_amended_scratch_cleanup.2 (Except.ok ("T", ["J_youtube.mp3"]))
      (Except.error "boom") true (Except.ok ()) "url" "ogg" none none "J" "n"
      "temp/J_youtube.mp3" "T" (by decide)).1 "Conversion failed: boom" (by decide)

/-! ### Claim C10 -/

/-- Claim C10, confirmed.  When the extractor completes without error but
no file in the temp directory starts with the jobId_youtube prefix,
download_youtube_audio returns None instead of raising an acquisition
error; the tuple unpacking of that None in process_conversion_job then
raises the generic TypeError whose text is recorded as the failure detail
of the job. -/
theorem c10_download_none_unpack :
    ∀ (enc : Except String Unit) (fex : Bool) (rm : Except String Unit)
      (jid title : String) (listing : List String) (sd fmt : String)
      (sr : Option Nat) (br : Option String) (nm : String),
      listing.find? (fun f => (jid ++ "_youtube").data.isPrefixOf f.data) = none →
      download_youtube_audio ⟨Except.ok (title, listing), enc, fex, rm⟩ jid =
        Except.ok none ∧
      (process_conversion_job ⟨Except.ok (title, listing), enc, fex, rm⟩
        SourceType.youtube sd fmt sr br jid nm).final.status = JobStatus.failed ∧
      (process_conversion_job ⟨Except.ok (title, listing), enc, fex, rm⟩
        SourceType.youtube sd fmt sr br jid nm).final.error =
          some "cannot unpack non-iterable NoneType object" ∧
      (process_conversion_job ⟨Except.ok (title, listing), enc, fex, rm⟩
        SourceType.youtube sd fmt sr br jid nm).encoderInvoked = false ∧
      (process_conversion_job ⟨Except.ok (title, listing), enc, fex, rm⟩
        SourceType.youtube sd fmt sr br jid nm).downloadInvoked = true := by
  intro enc fex rm jid title listing sd fmt sr br nm hf
  have hdl : download_youtube_audio ⟨Except.ok (title, listing), enc, fex, rm⟩ jid =
      Except.ok none := by
    simp only [download_youtube_audio]
    rw [hf]
  refine ⟨hdl, ?_, ?_, ?_, ?_⟩ <;>
    simp [process_conversion_job, hdl, failUpdates]

/-- Claim C10, witness at a concrete temp listing with no matching file. -/
theorem c10_download_none_unpack_witness :
    download_youtube_audio
      ⟨Except.ok ("T", ["other.mp3"]), Except.ok (), true, Except.ok ()⟩ "J" =
      Except.ok none ∧
    (process_conversion_job
      ⟨Except.ok ("T", ["other.mp3"]), Except.ok (), true, Except.ok ()⟩
      SourceType.youtube "u" "ogg" none none "J" "n").final.error =
        some "cannot unpack non-iterable NoneType object" := by
  have h := c10_download_none_unpack (Except.ok ()) true (Except.ok ()) "J" "T"
    ["other.mp3"] "u" "ogg" none none "n" (by decide)
  exact ⟨h.1, h.2.2.1⟩
